import Mathlib

/-!
Shallow embedding of the go-gntp GNTP client (package gntp): the data model,
the icon reference resolver, the REGISTER and NOTIFY packet encoders, the
transport write/validate logic and the callback listener parsing, translated
from src/gntp.go and the companion protocol file.  Machine strings are Lean
strings; byte payloads are lists of naturals below 256; packets are modelled
as the list of protocol lines that the Go code writes (each Go WriteString of
a line followed by CRLF becomes one list element, a blank line becomes "").
-/

namespace GoGntp

/-- GNTPVersion constant from gntp.go. -/
def GNTPVersion : String := "1.0"

/-- CRLF line terminator constant from gntp.go. -/
def CRLF : String := "\r\n"

/-- IconMode enumeration from gntp.go (Binary, FileURL, DataURL, HttpURL, Auto). -/
inductive IconMode
  | Binary
  | FileURL
  | DataURL
  | HttpURL
  | Auto
deriving DecidableEq, Repr

/-- Resource struct from gntp.go: an icon payload with identifier, bytes,
optional source path and MIME type.  Data models the Go byte slice as a list
of naturals (each below 256 for a well-formed byte). -/
structure Resource where
  Identifier : String
  Data : List Nat
  SourcePath : String
  MimeType : String
deriving DecidableEq, Repr

/-- NotificationType struct from gntp.go. -/
structure NotificationType where
  Name : String
  DisplayName : String
  Enabled : Bool
  Icon : Option Resource
deriving DecidableEq, Repr

/-- NotifyOptions struct from gntp.go. -/
structure NotifyOptions where
  Sticky : Bool
  Priority : Int
  Icon : Option Resource
  CallbackContext : String
  CallbackTarget : String
deriving DecidableEq, Repr

/-- Message struct from gntp.go (simplified notification structure). -/
structure Message where
  Event : String
  Title : String
  Text : String
  Icon : String
  Callback : String
  DisplayName : String
  Sticky : Bool
  Priority : Int
deriving DecidableEq, Repr

/-- Client state from gntp.go restricted to the fields the protocol engine
reads: host, port, application name, application icon, icon delivery mode,
the registered flag and the callback URL (empty when no callback handler is
installed).  Debug printing, timeouts and the live listener handle are I/O
concerns outside the embedding. -/
structure ClientState where
  Host : String
  Port : Int
  ApplicationName : String
  ApplicationIcon : Option Resource
  iconMode : IconMode
  registered : Bool
  callbackURL : String
deriving DecidableEq, Repr

/-! Base64 (models Go encoding/base64 StdEncoding, i.e. RFC 4648 with
padding, as used by toDataURL via base64.StdEncoding.EncodeToString).
Bit shifts and masks on bytes are written with division and remainder by
powers of two, which agree with the Go operations on values below 256. -/

/-- The standard base64 alphabet used by Go encoding/base64 StdEncoding. -/
def b64alphabet : List Char :=
  "ABCDEFGHIJKLMNOPQRSTUVWXYZabcdefghijklmnopqrstuvwxyz0123456789+/".data

/-- Character for a 6-bit group (indices below 64 hit the alphabet). -/
def encChar (i : Nat) : Char := b64alphabet.getD i '?'

/-- Index of a character in the base64 alphabet (inverse of encChar on the
alphabet; used only to state the decode direction of the round trip). -/
def decChar (c : Char) : Nat := b64alphabet.indexOf c

/-- Base64 encoding of a byte list, three bytes to four characters with
trailing '=' padding, as Go base64.StdEncoding.EncodeToString produces. -/
def b64encodeBytes : List Nat → List Char
  | a :: b :: c :: rest =>
      encChar (a / 4) :: encChar ((a % 4) * 16 + b / 16) ::
      encChar ((b % 16) * 4 + c / 64) :: encChar (c % 64) :: b64encodeBytes rest
  | [a, b] => [encChar (a / 4), encChar ((a % 4) * 16 + b / 16), encChar ((b % 16) * 4), '=']
  | [a] => [encChar (a / 4), encChar ((a % 4) * 16), '=', '=']
  | [] => []

/-- Base64 decoding of a character list in four-character groups with '='
padding, the inverse direction of RFC 4648 used to state the round-trip law. -/
def b64decodeChars : List Char → List Nat
  | c1 :: c2 :: c3 :: c4 :: rest =>
      if c3 = '=' then [decChar c1 * 4 + decChar c2 / 16]
      else if c4 = '=' then
        [decChar c1 * 4 + decChar c2 / 16, (decChar c2 % 16) * 16 + decChar c3 / 4]
      else
        (decChar c1 * 4 + decChar c2 / 16) ::
        ((decChar c2 % 16) * 16 + decChar c3 / 4) ::
        ((decChar c3 % 4) * 64 + decChar c4) :: b64decodeChars rest
  | _ => []

/-- MIME line wrapping from toDataURL in gntp.go: the encoded text is split
into chunks of 76 characters joined by CRLF, with no terminator after the
last chunk (the Go loop writes CRLF only while end < len). -/
def wrap76 (s : List Char) : List Char :=
  if s.length ≤ 76 then s
  else s.take 76 ++ '\r' :: '\n' :: wrap76 (s.drop 76)
termination_by s.length
decreasing_by
  simp only [List.length_drop]
  omega

/-- Removal of the CRLF line terminators from a payload (used to state the
round-trip law for the DataURL encoding). -/
def stripCRLF (s : List Char) : List Char :=
  s.filter fun c => !(c = '\r' ∨ c = '\n')

/-- toDataURL from gntp.go: base64-encode the payload, wrap lines at 76
characters joined by CRLF, and prefix the data URL scheme and MIME type. -/
def toDataURL (r : Resource) : String :=
  "data:" ++ r.MimeType ++ ";base64," ++ String.mk (wrap76 (b64encodeBytes r.Data))

/-- Replacement of every backslash by a forward slash, modelling the Go call
strings.ReplaceAll(path, single backslash, slash) in getReference. -/
def replaceBackslashes (s : String) : String :=
  String.mk (s.data.map fun c => if c = '\\' then '/' else c)

/-- getReference from gntp.go: the icon reference string for a Resource under
a delivery mode.  Binary yields an x-growl-resource URI; FileURL yields a
file URL from the source path (backslashes normalised) or falls back to the
data URL when the path is empty; HttpURL yields the source path verbatim or
falls back to the data URL; DataURL and Auto yield the data URL. -/
def getReference (r : Resource) (mode : IconMode) : String :=
  match mode with
  | IconMode.Binary => "x-growl-resource://" ++ r.Identifier
  | IconMode.FileURL =>
      if r.SourcePath ≠ "" then "file:///" ++ replaceBackslashes r.SourcePath
      else toDataURL r
  | IconMode.HttpURL =>
      if r.SourcePath ≠ "" then r.SourcePath
      else toDataURL r
  | _ => toDataURL r

/-- NewNotifyOptions from gntp.go: zero-valued options with priority 0. -/
def newNotifyOptions : NotifyOptions :=
  { Sticky := false, Priority := 0, Icon := none, CallbackContext := "", CallbackTarget := "" }

/-- WithSticky setter from gntp.go. -/
def NotifyOptions.withSticky (no : NotifyOptions) (sticky : Bool) : NotifyOptions :=
  { no with Sticky := sticky }

/-- WithPriority setter from gntp.go: values below -2 are clamped to -2,
values above 2 are clamped to 2, values in the closed range pass through. -/
def NotifyOptions.withPriority (no : NotifyOptions) (priority : Int) : NotifyOptions :=
  let priority := if priority < -2 then -2 else if priority > 2 then 2 else priority
  { no with Priority := priority }

/-- WithIcon setter on NotifyOptions from gntp.go. -/
def NotifyOptions.withIcon (no : NotifyOptions) (icon : Resource) : NotifyOptions :=
  { no with Icon := some icon }

/-- WithCallbackTarget setter from gntp.go. -/
def NotifyOptions.withCallbackTarget (no : NotifyOptions) (target : String) : NotifyOptions :=
  { no with CallbackTarget := target }

/-- NewNotificationType from gntp.go: named type, enabled, no icon. -/
def newNotificationType (name : String) : NotificationType :=
  { Name := name, DisplayName := "", Enabled := true, Icon := none }

/-- WithDisplayName setter on NotificationType from gntp.go. -/
def NotificationType.withDisplayName (nt : NotificationType) (d : String) : NotificationType :=
  { nt with DisplayName := d }

/-- WithIcon setter on NotificationType from gntp.go; a nil Go pointer is the
none case. -/
def NotificationType.withIconOpt (nt : NotificationType) (icon : Option Resource) : NotificationType :=
  { nt with Icon := icon }

/-! REGISTER packet encoder (Register in the protocol file, lines 14-99).
The packet is modelled as the list of lines written by the Go code, in order;
a blank line is the empty string.  Resource accumulation mirrors the Go
resources slice and seenIDs set. -/

/-- Accumulator for the Go resources slice and seenIDs map in Register. -/
structure RegAcc where
  resources : List Resource
  seenIDs : List String
deriving DecidableEq, Repr

/-- One icon consideration step in Register: in Binary mode an icon whose
identifier has not been seen is appended to the raw-resource list and its
identifier marked seen; otherwise the accumulator is unchanged. -/
def addBinaryResource (c : ClientState) (icon : Resource) (acc : RegAcc) : RegAcc :=
  if c.iconMode = IconMode.Binary ∧ icon.Identifier ∉ acc.seenIDs then
    { resources := acc.resources ++ [icon], seenIDs := icon.Identifier :: acc.seenIDs }
  else acc

/-- Resource accumulation of Register: the application icon first, then each
notification type icon in caller order. -/
def registerAcc (c : ClientState) (nts : List NotificationType) : RegAcc :=
  let acc0 : RegAcc := { resources := [], seenIDs := [] }
  let acc1 := match c.ApplicationIcon with
    | some icon => addBinaryResource c icon acc0
    | none => acc0
  nts.foldl (fun acc nt =>
    match nt.Icon with
    | some icon => addBinaryResource c icon acc
    | none => acc) acc1

/-- The raw-resource transmission list produced by Register. -/
def registerResources (c : ClientState) (nts : List NotificationType) : List Resource :=
  (registerAcc c nts).resources

/-- Lines of one notification type block in the REGISTER packet. -/
def notifTypeLines (c : ClientState) (nt : NotificationType) : List String :=
  ["Notification-Name: " ++ nt.Name]
  ++ (if nt.DisplayName ≠ "" then ["Notification-Display-Name: " ++ nt.DisplayName] else [])
  ++ ["Notification-Enabled: " ++ (if nt.Enabled then "True" else "False")]
  ++ (match nt.Icon with
      | some icon => ["Notification-Icon: " ++ getReference icon c.iconMode]
      | none => [])
  ++ [""]

/-- The Identifier/Length declaration block appended in Binary mode: one
Identifier line, one Length line and a blank line per listed resource. -/
def resourceBlockLines (resources : List Resource) : List String :=
  resources.flatMap fun r =>
    ["Identifier: " ++ r.Identifier, "Length: " ++ toString r.Data.length, ""]

/-- Lines of the REGISTER packet built by Register, in write order. -/
def registerLines (c : ClientState) (nts : List NotificationType) : List String :=
  ["GNTP/" ++ GNTPVersion ++ " REGISTER NONE",
   "Application-Name: " ++ c.ApplicationName]
  ++ (match c.ApplicationIcon with
      | some icon => ["Application-Icon: " ++ getReference icon c.iconMode]
      | none => [])
  ++ (if c.callbackURL ≠ "" then ["Notification-Callback-Target: " ++ c.callbackURL] else [])
  ++ ["Notifications-Count: " ++ toString nts.length, ""]
  ++ nts.flatMap (notifTypeLines c)
  ++ (if c.iconMode = IconMode.Binary then resourceBlockLines (registerResources c nts) else [])

/-- Packet text from its lines: each line is written followed by CRLF. -/
def linesToPacket (lines : List String) : String :=
  String.join (lines.map fun l => l ++ CRLF)

/-- The REGISTER packet text. -/
def registerPacketStr (c : ClientState) (nts : List NotificationType) : String :=
  linesToPacket (registerLines c nts)

/-! NOTIFY packet encoder (NotifyWithOptions, lines 107-177).  The
notification identifier is derived in Go from an md5 over the application
name, notification name and the current wall-clock nanosecond time; the
clock value makes it nondeterministic, so the identifier string is taken as
an input of the embedding. -/

/-- The raw-resource list of a NOTIFY: the option icon, in Binary mode only. -/
def notifyResources (c : ClientState) (options : NotifyOptions) : List Resource :=
  match options.Icon with
  | some icon => if c.iconMode = IconMode.Binary then [icon] else []
  | none => []

/-- Lines of the NOTIFY packet built by NotifyWithOptions, in write order. -/
def notifyPacketLines (c : ClientState) (notificationName title text notificationID : String)
    (options : NotifyOptions) : List String :=
  ["GNTP/" ++ GNTPVersion ++ " NOTIFY NONE",
   "Application-Name: " ++ c.ApplicationName,
   "Notification-Name: " ++ notificationName,
   "Notification-ID: " ++ notificationID,
   "Notification-Title: " ++ title,
   "Notification-Text: " ++ text]
  ++ (if options.Sticky then ["Notification-Sticky: True"] else [])
  ++ (if options.Priority ≠ 0 then ["Notification-Priority: " ++ toString options.Priority] else [])
  ++ (match options.Icon with
      | some icon => ["Notification-Icon: " ++ getReference icon c.iconMode]
      | none => [])
  ++ (if c.callbackURL ≠ "" then
        ["Notification-Callback-Context: " ++ options.CallbackContext,
         "Notification-Callback-Context-Type: string"]
        ++ (if options.CallbackTarget ≠ "" then
              ["Notification-Callback-Target: " ++ options.CallbackTarget] else [])
      else [])
  ++ [""]
  ++ (if c.iconMode = IconMode.Binary then
        resourceBlockLines (notifyResources c options) else [])

/-! Transport session write model (sendPacket lines 224-243 and
sendPacketWithResources lines 288-317).  Each Go conn.Write call becomes one
chunk; the byte stream on the wire is the flattening of the chunks. -/

/-- One conn.Write call: either protocol text or raw resource bytes. -/
inductive NetChunk
  | str (s : String)
  | bytes (b : List Nat)
deriving DecidableEq, Repr

/-- Wire bytes of protocol text (the protocol text is ASCII, where UTF-8
coincides with the code points). -/
def strToBytes (s : String) : List Nat := s.data.map Char.toNat

/-- CRLF as wire bytes. -/
def crlfBytes : List Nat := strToBytes CRLF

/-- Byte stream of a chunk sequence. -/
def flattenChunks (chunks : List NetChunk) : List Nat :=
  chunks.flatMap fun ch =>
    match ch with
    | NetChunk.str s => strToBytes s
    | NetChunk.bytes b => b

/-- Writes of sendPacket: the single write of the packet text. -/
def sendPacketChunks (packet : String) : List NetChunk :=
  [NetChunk.str packet]

/-- Writes of sendPacketWithResources: the packet text, then for each listed
resource its raw bytes followed by CRLF, then one final CRLF terminator
(written unconditionally, also when the resource list is empty). -/
def sendPacketWithResourcesChunks (packet : String) (resources : List Resource) : List NetChunk :=
  NetChunk.str packet ::
  (resources.flatMap fun r => [NetChunk.bytes r.Data, NetChunk.str CRLF])
  ++ [NetChunk.str CRLF]

/-- Send-path choice of Register (lines 86-91): Binary mode uses the
resource-bearing writer, every other mode the text-only writer. -/
def registerSendChunks (c : ClientState) (nts : List NotificationType) : List NetChunk :=
  if c.iconMode = IconMode.Binary then
    sendPacketWithResourcesChunks (registerPacketStr c nts) (registerResources c nts)
  else
    sendPacketChunks (registerPacketStr c nts)

/-! NotifyWithOptions entry guard (lines 107-110) and outbound I/O trace. -/

/-- Outcome of the packet-building phase of NotifyWithOptions: a usage error
when the client is not registered, otherwise the packet text and the
raw-resource list handed to the transport. -/
def notifyWithOptionsPlan (c : ClientState) (notificationName title text notificationID : String)
    (options : NotifyOptions) : Except String (String × List Resource) :=
  if !c.registered then
    Except.error "must call Register() before Notify()"
  else
    Except.ok (linesToPacket (notifyPacketLines c notificationName title text notificationID options),
               notifyResources c options)

/-- Notify (lines 102-104): NotifyWithOptions with fresh default options. -/
def notifyPlan (c : ClientState) (notificationName title text notificationID : String) :
    Except String (String × List Resource) :=
  notifyWithOptionsPlan c notificationName title text notificationID newNotifyOptions

/-- One observable network action of an outbound call. -/
inductive NetEvent
  | connect (address : String)
  | write (chunk : NetChunk)
deriving DecidableEq, Repr

/-- Network events of a NotifyWithOptions call on the path where the
connection succeeds: nothing at all when the registered guard fails,
otherwise a connect to host:port followed by the writes of the chosen send
path (lines 170-176). -/
def notifyNetEvents (c : ClientState) (notificationName title text notificationID : String)
    (options : NotifyOptions) : List NetEvent :=
  match notifyWithOptionsPlan c notificationName title text notificationID options with
  | Except.error _ => []
  | Except.ok (packet, resources) =>
      NetEvent.connect (c.Host ++ ":" ++ toString c.Port) ::
      (if c.iconMode = IconMode.Binary then
        sendPacketWithResourcesChunks packet resources
       else sendPacketChunks packet).map NetEvent.write

/-! Response reading and validation (sendPacket lines 250-284 and the
identical loop of sendPacketWithResources, lines 320-347).  Each iteration of
the Go read loop consumes one read result from the connection; the stream of
read results is the input of the embedding. -/

/-- One result of reader.ReadString on the response connection: a complete
line (terminator included), end of stream, an error whose text contains the
word connection (tolerated as end of response), or any other read error. -/
inductive ReadEvent
  | line (s : String)
  | eof
  | connErr
  | fatalErr (msg : String)
deriving DecidableEq, Repr

/-- Go strings.Contains, as an infix check on the character lists. -/
def goContains (s sub : String) : Bool :=
  decide (sub.data <:+: s.data)

/-- Blank-line test of the read loop: strings.TrimSpace(line) is empty, i.e.
every character of the line is whitespace (the ASCII whitespace characters
that TrimSpace strips; protocol lines are ASCII). -/
def isBlankLine (s : String) : Bool :=
  s.data.all fun c => c = ' ' ∨ c = '\t' ∨ c = '\n' ∨ c = '\x0b' ∨ c = '\x0c' ∨ c = '\r'

/-- The accumulation loop: lines are appended to the response until a blank
line, end of stream or a connection error ends the read (all three tolerated
as end of response); any other read error fails the call.  An exhausted
event stream is treated as end of stream. -/
def readResponse (events : List ReadEvent) (acc : String) : Except String String :=
  match events with
  | [] => Except.ok acc
  | ReadEvent.eof :: _ => Except.ok acc
  | ReadEvent.connErr :: _ => Except.ok acc
  | ReadEvent.fatalErr msg :: _ => Except.error ("failed to read response: " ++ msg)
  | ReadEvent.line s :: rest =>
      if isBlankLine s then Except.ok (acc ++ s)
      else readResponse rest (acc ++ s)

/-- The read-and-validate phase of sendPacket: accumulate the response, then
fail with a server error embedding the full text when it contains the -ERROR
marker, and return the accumulated text otherwise. -/
def sendPacketValidate (events : List ReadEvent) : Except String String :=
  match readResponse events "" with
  | Except.error e => Except.error e
  | Except.ok responseStr =>
      if goContains responseStr "-ERROR" then
        Except.error ("server error: " ++ responseStr)
      else Except.ok responseStr

/-! Callback listener (handleCallback, gntp.go lines 223-258, and the accept
loop of acceptCallbacks).  The single conn.Read of a connection either fails
or yields the received text; the wall-clock receipt timestamp is outside the
embedding. -/

/-- The four parsed fields of a callback message (CallbackInfo without the
receipt timestamp). -/
structure CallbackData where
  CbType : String
  NotificationID : String
  Context : String
  ContextType : String
deriving DecidableEq, Repr

/-- Go strings.Split on the two-character CRLF separator, leftmost first,
non-overlapping. -/
def splitCRLF : List Char → List (List Char)
  | [] => [[]]
  | '\r' :: '\n' :: rest => [] :: splitCRLF rest
  | c :: rest =>
      match splitCRLF rest with
      | [] => [[c]]
      | l :: ls => (c :: l) :: ls

/-- Go strings.HasPrefix. -/
def goHasPrefix (s p : String) : Bool :=
  decide (p.data <+: s.data)

/-- Go strings.TrimPrefix under a known prefix: drop the prefix length. -/
def goTrimPrefix (s p : String) : String :=
  String.mk (s.data.drop p.data.length)

/-- The field-extraction loop of handleCallback: each line updates the field
whose literal header prefix it carries; unrecognised lines are ignored. -/
def parseCallback (response : String) : CallbackData :=
  let lines := (splitCRLF response.data).map String.mk
  lines.foldl (fun info line =>
    if goHasPrefix line "Notification-Callback-Result: " then
      { info with CbType := goTrimPrefix line "Notification-Callback-Result: " }
    else if goHasPrefix line "Notification-ID: " then
      { info with NotificationID := goTrimPrefix line "Notification-ID: " }
    else if goHasPrefix line "Notification-Callback-Context: " then
      { info with Context := goTrimPrefix line "Notification-Callback-Context: " }
    else if goHasPrefix line "Notification-Callback-Context-Type: " then
      { info with ContextType := goTrimPrefix line "Notification-Callback-Context-Type: " }
    else info)
    { CbType := "", NotificationID := "", Context := "", ContextType := "" }

/-- The acknowledgement line written back by handleCallback. -/
def ackResponse : String :=
  "GNTP/" ++ GNTPVersion ++ " -OK NONE" ++ CRLF ++ CRLF

/-- Observable outcome of handleCallback on one connection. -/
structure CallbackOutcome where
  ackWritten : Option String
  handlerCalled : Option CallbackData
deriving DecidableEq, Repr

/-- handleCallback: a failed read returns at once, writing nothing and
invoking no handler; a successful read is parsed, the acknowledgement is
written, and the handler (when one is set) is invoked with the parsed data.
The read result none models a conn.Read error. -/
def handleCallback (handlerSet : Bool) (readResult : Option String) : CallbackOutcome :=
  match readResult with
  | none => { ackWritten := none, handlerCalled := none }
  | some response =>
      let info := parseCallback response
      { ackWritten := some ackResponse
        handlerCalled := if handlerSet then some info else none }

/-- The accept loop: every accepted connection is handled independently; the
outcome on one connection does not affect the handling of the others. -/
def acceptLoop (handlerSet : Bool) (reads : List (Option String)) : List CallbackOutcome :=
  reads.map (handleCallback handlerSet)

/-! SendMessage (lines 180-221): the compatibility entry point.  Reading the
icon file is filesystem I/O, so the load outcome is an input: an error text
when LoadResource failed, otherwise the loaded Resource (none when no icon
path was given).  Transport outcomes are abstracted: the plan records the
protocol operations SendMessage issues, in order, on the path where each
operation succeeds. -/

/-- The operations SendMessage performs after a successful icon load. -/
structure SendMessagePlan where
  registerWith : Option (List NotificationType)
  notifyName : String
  notifyTitle : String
  notifyText : String
  notifyOptions : NotifyOptions
deriving DecidableEq, Repr

/-- Option construction of SendMessage (lines 208-218): default options with
the sticky flag, the clamped priority, the loaded icon when present and the
callback target when the message carries one. -/
def sendMessageOptions (msg : Message) (icon : Option Resource) : NotifyOptions :=
  let options := (newNotifyOptions.withSticky msg.Sticky).withPriority msg.Priority
  let options := match icon with
    | some i => options.withIcon i
    | none => options
  if msg.Callback ≠ "" then options.withCallbackTarget msg.Callback else options

/-- SendMessage: when the icon load failed the call fails at once; otherwise,
on an unregistered client, a single NotificationType named after the message
event (display name defaulting to the event) is registered first, and on a
registered client registration is skipped; in both cases the notification is
then sent with the constructed options. -/
def sendMessagePlan (c : ClientState) (msg : Message)
    (iconLoad : Except String (Option Resource)) : Except String SendMessagePlan :=
  match iconLoad with
  | Except.error e => Except.error ("failed to load icon: " ++ e)
  | Except.ok icon =>
      let registerWith :=
        if !c.registered then
          let displayName := if msg.DisplayName = "" then msg.Event else msg.DisplayName
          some [((newNotificationType msg.Event).withDisplayName displayName).withIconOpt icon]
        else none
      Except.ok
        { registerWith := registerWith
          notifyName := msg.Event
          notifyTitle := msg.Title
          notifyText := msg.Text
          notifyOptions := sendMessageOptions msg icon }

/-! Claim theorems. -/

/-- C1: on every client session whose registered flag is false, Notify and
NotifyWithOptions (any name, title, text and options) return the usage error
at once and perform no network I/O: no connection is opened and nothing is
written. -/
theorem notify_before_register_fails_without_io (c : ClientState)
    (notificationName title text notificationID : String) (options : NotifyOptions)
    (h : c.registered = false) :
    notifyWithOptionsPlan c notificationName title text notificationID options =
      Except.error "must call Register() before Notify()" ∧
    notifyPlan c notificationName title text notificationID =
      Except.error "must call Register() before Notify()" ∧
    notifyNetEvents c notificationName title text notificationID options = [] := by
  refine ⟨?_, ?_, ?_⟩ <;>
    simp [notifyWithOptionsPlan, notifyPlan, notifyNetEvents, h]

/-- An unregistered client fixture used by witnesses. -/
def clientUnregistered : ClientState :=
  { Host := "localhost", Port := 23053, ApplicationName := "My App",
    ApplicationIcon := none, iconMode := IconMode.DataURL,
    registered := false, callbackURL := "" }

/-- Witness for C1 at a concrete unregistered client. -/
theorem notify_before_register_fails_without_io_witness :
    notifyWithOptionsPlan clientUnregistered "alert" "Hello" "World" "id0" newNotifyOptions =
      Except.error "must call Register() before Notify()" ∧
    notifyPlan clientUnregistered "alert" "Hello" "World" "id0" =
      Except.error "must call Register() before Notify()" ∧
    notifyNetEvents clientUnregistered "alert" "Hello" "World" "id0" newNotifyOptions = [] :=
  notify_before_register_fails_without_io clientUnregistered
    "alert" "Hello" "World" "id0" newNotifyOptions rfl

/-- C7: WithPriority clamps: above 2 stores 2, below -2 stores -2, values in
the closed range pass through unchanged; in particular 5 maps to 2 and -5 to
-2, and no value is rejected. -/
theorem withPriority_clamps (no : NotifyOptions) (p : Int) :
    (p > 2 → (no.withPriority p).Priority = 2) ∧
    (p < -2 → (no.withPriority p).Priority = -2) ∧
    (-2 ≤ p → p ≤ 2 → (no.withPriority p).Priority = p) ∧
    (no.withPriority 5).Priority = 2 ∧
    (no.withPriority (-5)).Priority = -2 := by
  refine ⟨fun h => ?_, fun h => ?_, fun h1 h2 => ?_, ?_, ?_⟩ <;>
    simp only [NotifyOptions.withPriority] <;> split_ifs <;> first | rfl | omega

/-- Witness for C7 at the concrete priorities 5, -5 and 1. -/
theorem withPriority_clamps_witness :
    (newNotifyOptions.withPriority 5).Priority = 2 ∧
    (newNotifyOptions.withPriority (-5)).Priority = -2 ∧
    (newNotifyOptions.withPriority 1).Priority = 1 :=
  ⟨(withPriority_clamps newNotifyOptions 5).1 (by omega),
   (withPriority_clamps newNotifyOptions (-5)).2.1 (by omega),
   (withPriority_clamps newNotifyOptions 1).2.2.1 (by omega) (by omega)⟩

/-- C9: in FileURL mode a non-empty source path yields file:/// followed by
the path with every backslash replaced by a forward slash, and an empty path
falls back to the DataURL encoding; in HttpURL mode a non-empty source path
is emitted verbatim and an empty path falls back to the DataURL encoding. -/
theorem getReference_fileurl_httpurl (r : Resource) :
    getReference r IconMode.FileURL =
      (if r.SourcePath = "" then toDataURL r
       else "file:///" ++ String.mk (r.SourcePath.data.map fun c => if c = '\\' then '/' else c)) ∧
    getReference r IconMode.HttpURL =
      (if r.SourcePath = "" then toDataURL r else r.SourcePath) := by
  by_cases h : r.SourcePath = "" <;>
    simp [getReference, replaceBackslashes, h]

/-- C10: SendMessage with a successfully loaded icon registers first exactly
when the registered flag is false, with a single NotificationType named
after the message event whose display name defaults to the event, and then
notifies with the message fields; on an already registered client it skips
registration and notifies directly. -/
theorem sendMessage_register_once (c : ClientState) (msg : Message) (icon : Option Resource) :
    sendMessagePlan c msg (Except.ok icon) =
      Except.ok
        { registerWith :=
            if c.registered then none
            else some [{ Name := msg.Event,
                         DisplayName := if msg.DisplayName = "" then msg.Event else msg.DisplayName,
                         Enabled := true, Icon := icon }]
          notifyName := msg.Event
          notifyTitle := msg.Title
          notifyText := msg.Text
          notifyOptions := sendMessageOptions msg icon } := by
  by_cases h : c.registered <;>
    simp [sendMessagePlan, newNotificationType, NotificationType.withDisplayName,
      NotificationType.withIconOpt, h]

/-- C4: for every response text accumulated by the read loop (which ends at a
blank line, at end of stream or at a closed connection), a text containing
the -ERROR marker fails the send with a server error embedding the full text,
and a text without the marker succeeds and is returned to the caller. -/
theorem response_error_marker_validation (events : List ReadEvent) (s : String)
    (h : readResponse events "" = Except.ok s) :
    (goContains s "-ERROR" = true →
      sendPacketValidate events = Except.error ("server error: " ++ s)) ∧
    (goContains s "-ERROR" = false →
      sendPacketValidate events = Except.ok s) := by
  constructor <;> intro hc <;> simp [sendPacketValidate, h, hc]

/-- Success-response event stream fixture: one status line, then the blank
line that ends the response. -/
def eventsOk : List ReadEvent :=
  [ReadEvent.line ("GNTP/1.0 -OK NONE" ++ CRLF), ReadEvent.line CRLF]

/-- Error-response event stream fixture, ended by connection close. -/
def eventsErr : List ReadEvent :=
  [ReadEvent.line ("GNTP/1.0 -ERROR NONE" ++ CRLF), ReadEvent.connErr]

/-- Witness for C4 on a concrete success response and a concrete error
response. -/
theorem response_error_marker_validation_witness :
    sendPacketValidate eventsOk = Except.ok ("GNTP/1.0 -OK NONE" ++ CRLF ++ CRLF) ∧
    sendPacketValidate eventsErr =
      Except.error ("server error: " ++ ("GNTP/1.0 -ERROR NONE" ++ CRLF)) :=
  ⟨(response_error_marker_validation eventsOk ("GNTP/1.0 -OK NONE" ++ CRLF ++ CRLF)
      (by rfl)).2 (by decide),
   (response_error_marker_validation eventsErr ("GNTP/1.0 -ERROR NONE" ++ CRLF)
      (by rfl)).1 (by decide)⟩

/-- C5 counterexample: a malformed callback message that is read successfully
is not dropped; handleCallback acknowledges it and invokes the registered
handler with empty fields, refuting the claim that a malformed message never
reaches the handler. -/
theorem callback_malformed_invokes_handler :
    handleCallback true (some "this is not a gntp callback") =
      { ackWritten := some ("GNTP/" ++ GNTPVersion ++ " -OK NONE" ++ CRLF ++ CRLF)
        handlerCalled := some { CbType := "", NotificationID := "", Context := "", ContextType := "" } } ∧
    (handleCallback true (some "this is not a gntp callback")).handlerCalled ≠ none := by
  constructor
  · decide
  · decide

/-- C5 (amended): a read error on an inbound callback connection drops the
connection silently, writing nothing and invoking no handler, and the accept
loop still handles every remaining connection; a message that is read
successfully, malformed or not, is acknowledged and the registered handler is
invoked with the parsed (possibly empty) fields. -/
theorem callback_read_error_drop_and_parse (handlerSet : Bool)
    (reads : List (Option String)) :
    handleCallback handlerSet none = { ackWritten := none, handlerCalled := none } ∧
    (∀ s, handleCallback handlerSet (some s) =
      { ackWritten := some ackResponse
        handlerCalled := if handlerSet then some (parseCallback s) else none }) ∧
    acceptLoop handlerSet (none :: reads) =
      { ackWritten := none, handlerCalled := none } :: acceptLoop handlerSet reads := by
  refine ⟨rfl, fun s => rfl, rfl⟩

/-! Helper lemmas about protocol lines.  A header line is a fixed key
followed by a variable value; two lines with incomparable fixed parts can
never be equal and the key of one can never begin the other, whatever the
values are. -/

/-- Whether a line begins with the given header key. -/
def lineHasKey (key : String) (l : String) : Bool :=
  decide (key.data <+: l.data)

theorem not_prefix_of_append {p k : List Char} (v : List Char)
    (h1 : ¬ p <+: k) (h2 : ¬ k <+: p) : ¬ p <+: k ++ v := fun hp =>
  ( List.prefix_or_prefix_of_prefix hp (List.prefix_append k v)).elim h1 h2

theorem lineHasKey_append_false {p k : String} (v : String)
    (h1 : ¬ (p.data <+: k.data)) (h2 : ¬ (k.data <+: p.data)) :
    lineHasKey p (k ++ v) = false := by
  simp only [lineHasKey, String.data_append, decide_eq_false_iff_not]
  exact not_prefix_of_append v.data h1 h2

theorem lineHasKey_append_true {p k : String} (v : String) (h : p.data <+: k.data) :
    lineHasKey p (k ++ v) = true := by
  simp only [lineHasKey, String.data_append, decide_eq_true_eq]
  exact h.trans (List.prefix_append k.data v.data)

theorem lineHasKey_const_false {p l : String} (h : ¬ (p.data <+: l.data)) :
    lineHasKey p l = false := by
  simp only [lineHasKey, decide_eq_false_iff_not]
  exact h

theorem append_ne_of_key_ne {k p : String} (v d : String)
    (h1 : ¬ (k.data <+: p.data)) (h2 : ¬ (p.data <+: k.data)) :
    k ++ v ≠ p ++ d := by
  intro h
  have hd := congrArg String.data h
  simp only [String.data_append] at hd
  have hk : k.data <+: p.data ++ d.data := hd ▸ List.prefix_append k.data v.data
  exact (( List.prefix_or_prefix_of_prefix hk (List.prefix_append p.data d.data)).elim h1 h2)

theorem const_ne_key_append {cst p : String} (d : String)
    (h : ¬ (p.data <+: cst.data)) : cst ≠ p ++ d := by
  intro he
  have hd := congrArg String.data he
  simp only [String.data_append] at hd
  exact h (hd ▸ List.prefix_append p.data d.data)

theorem key_append_inj {k a b : String} : (k ++ a = k ++ b) ↔ a = b := by
  constructor
  · intro h
    have hd := congrArg String.data h
    simp only [String.data_append] at hd
    exact String.ext (List.append_cancel_left hd)
  · intro h
    rw [h]

/-! Per-line facts for the sticky and priority header keys: no line of the
NOTIFY packet other than the sticky (resp. priority) header line itself can
begin with the key, whatever the variable header values are. -/

theorem stickyKeyFalse (v : String) :
    lineHasKey "Notification-Sticky" ("Application-Name: " ++ v) = false ∧
    lineHasKey "Notification-Sticky" ("Notification-Name: " ++ v) = false ∧
    lineHasKey "Notification-Sticky" ("Notification-ID: " ++ v) = false ∧
    lineHasKey "Notification-Sticky" ("Notification-Title: " ++ v) = false ∧
    lineHasKey "Notification-Sticky" ("Notification-Text: " ++ v) = false ∧
    lineHasKey "Notification-Sticky" ("Notification-Priority: " ++ v) = false ∧
    lineHasKey "Notification-Sticky" ("Notification-Icon: " ++ v) = false ∧
    lineHasKey "Notification-Sticky" ("Notification-Callback-Context: " ++ v) = false ∧
    lineHasKey "Notification-Sticky" ("Notification-Callback-Target: " ++ v) = false ∧
    lineHasKey "Notification-Sticky" ("Identifier: " ++ v) = false ∧
    lineHasKey "Notification-Sticky" ("Length: " ++ v) = false := by
  refine ⟨?_, ?_, ?_, ?_, ?_, ?_, ?_, ?_, ?_, ?_, ?_⟩ <;>
    exact lineHasKey_append_false v (by decide) (by decide)

theorem stickyConstFacts :
    lineHasKey "Notification-Sticky" ("GNTP/" ++ GNTPVersion ++ " NOTIFY NONE") = false ∧
    lineHasKey "Notification-Sticky" "Notification-Callback-Context-Type: string" = false ∧
    lineHasKey "Notification-Sticky" "" = false ∧
    lineHasKey "Notification-Sticky" "Notification-Sticky: True" = true := by decide

theorem priorityKeyFalse (v : String) :
    lineHasKey "Notification-Priority" ("Application-Name: " ++ v) = false ∧
    lineHasKey "Notification-Priority" ("Notification-Name: " ++ v) = false ∧
    lineHasKey "Notification-Priority" ("Notification-ID: " ++ v) = false ∧
    lineHasKey "Notification-Priority" ("Notification-Title: " ++ v) = false ∧
    lineHasKey "Notification-Priority" ("Notification-Text: " ++ v) = false ∧
    lineHasKey "Notification-Priority" ("Notification-Icon: " ++ v) = false ∧
    lineHasKey "Notification-Priority" ("Notification-Callback-Context: " ++ v) = false ∧
    lineHasKey "Notification-Priority" ("Notification-Callback-Target: " ++ v) = false ∧
    lineHasKey "Notification-Priority" ("Identifier: " ++ v) = false ∧
    lineHasKey "Notification-Priority" ("Length: " ++ v) = false := by
  refine ⟨?_, ?_, ?_, ?_, ?_, ?_, ?_, ?_, ?_, ?_⟩ <;>
    exact lineHasKey_append_false v (by decide) (by decide)

theorem priorityConstFacts :
    lineHasKey "Notification-Priority" ("GNTP/" ++ GNTPVersion ++ " NOTIFY NONE") = false ∧
    lineHasKey "Notification-Priority" "Notification-Callback-Context-Type: string" = false ∧
    lineHasKey "Notification-Priority" "" = false ∧
    lineHasKey "Notification-Priority" "Notification-Sticky: True" = false := by decide

theorem priorityLineTrue (v : String) :
    lineHasKey "Notification-Priority" ("Notification-Priority: " ++ v) = true :=
  lineHasKey_append_true v (by decide)

/-- C8: in every NOTIFY packet, a line beginning with the Notification-Sticky
key is present exactly when the sticky flag is true, and a line beginning
with the Notification-Priority key is present exactly when the priority is
nonzero; with Sticky false and Priority 0 both lines are absent. -/
theorem notify_sticky_priority_lines (c : ClientState)
    (notificationName title text notificationID : String) (options : NotifyOptions) :
    ((notifyPacketLines c notificationName title text notificationID options).countP
        (lineHasKey "Notification-Sticky") = if options.Sticky then 1 else 0) ∧
    ((notifyPacketLines c notificationName title text notificationID options).countP
        (lineHasKey "Notification-Priority") = if options.Priority = 0 then 0 else 1) := by
  constructor <;>
  · rcases hIcon : options.Icon with _ | icon <;>
      by_cases hS : options.Sticky <;>
      by_cases hP : options.Priority = 0 <;>
      by_cases hC : c.callbackURL = "" <;>
      by_cases hT : options.CallbackTarget = "" <;>
      by_cases hM : c.iconMode = IconMode.Binary <;>
      simp [notifyPacketLines, notifyResources, resourceBlockLines,
        List.countP_append, List.countP_cons,
        hIcon, hS, hP, hC, hT, hM,
        stickyKeyFalse, stickyConstFacts, priorityKeyFalse, priorityConstFacts,
        priorityLineTrue]

/-! Deduplication invariant of Register. -/

/-- Identifiers referenced by the notification-type icons, in caller order,
repetitions included. -/
def notifIconIds (nts : List NotificationType) : List String :=
  nts.filterMap fun nt => nt.Icon.map fun icon => icon.Identifier

/-- Identifiers referenced by a REGISTER call: the application icon, then the
notification-type icons, repetitions included. -/
def referencedIds (c : ClientState) (nts : List NotificationType) : List String :=
  (match c.ApplicationIcon with
   | some icon => [icon.Identifier]
   | none => []) ++ notifIconIds nts

/-- Invariant of the Register accumulation loop: when the seen set matches
the identifiers of the accumulated resources and those are duplicate-free,
both properties are preserved by the loop over the notification types, and
the final identifiers are the initial ones plus, in Binary mode, the
referenced notification icon identifiers. -/
theorem registerFold_spec (c : ClientState) (nts : List NotificationType) :
    ∀ acc : RegAcc,
      (∀ x, x ∈ acc.seenIDs ↔ x ∈ acc.resources.map fun r => r.Identifier) →
      ((acc.resources.map fun r => r.Identifier).Nodup) →
      (∀ x, x ∈ (nts.foldl (fun a nt => match nt.Icon with
          | some icon => addBinaryResource c icon a
          | none => a) acc).seenIDs ↔
        x ∈ ((nts.foldl (fun a nt => match nt.Icon with
          | some icon => addBinaryResource c icon a
          | none => a) acc).resources.map fun r => r.Identifier)) ∧
      (((nts.foldl (fun a nt => match nt.Icon with
          | some icon => addBinaryResource c icon a
          | none => a) acc).resources.map fun r => r.Identifier).Nodup) ∧
      (∀ x, x ∈ ((nts.foldl (fun a nt => match nt.Icon with
          | some icon => addBinaryResource c icon a
          | none => a) acc).resources.map fun r => r.Identifier) ↔
        (x ∈ acc.resources.map fun r => r.Identifier) ∨
        (c.iconMode = IconMode.Binary ∧ x ∈ notifIconIds nts)) := by
  induction nts with
  | nil =>
    intro acc hinv hnd
    exact ⟨hinv, hnd, fun x => by simp [notifIconIds]⟩
  | cons nt rest ih =>
    intro acc hinv hnd
    rcases hNt : nt.Icon with _ | icon
    · have h := ih acc hinv hnd
      simp only [List.foldl_cons, hNt] at h ⊢
      refine ⟨h.1, h.2.1, fun x => ?_⟩
      rw [h.2.2 x]
      simp [notifIconIds, List.filterMap_cons, hNt]
    · simp only [List.foldl_cons, hNt]
      by_cases hc : c.iconMode = IconMode.Binary ∧ icon.Identifier ∉ acc.seenIDs
      · have hstep : addBinaryResource c icon acc =
            { resources := acc.resources ++ [icon], seenIDs := icon.Identifier :: acc.seenIDs } := by
          simp [addBinaryResource, hc]
        have hnotin : icon.Identifier ∉ acc.resources.map fun r => r.Identifier := fun hm =>
          hc.2 ((hinv icon.Identifier).mpr hm)
        have hinv1 : ∀ x, x ∈ (addBinaryResource c icon acc).seenIDs ↔
            x ∈ (addBinaryResource c icon acc).resources.map fun r => r.Identifier := by
          intro x
          rw [hstep]
          simp only [List.mem_cons, List.map_append, List.map_cons, List.map_nil,
            List.mem_append, List.mem_singleton]
          rw [hinv x]
          tauto
        have hnd1 : (((addBinaryResource c icon acc).resources.map fun r => r.Identifier).Nodup) := by
          rw [hstep]
          simp only [List.map_append, List.map_cons, List.map_nil]
          rw [List.nodup_append]
          refine ⟨hnd, List.nodup_singleton _, ?_⟩
          intro a ha hb
          simp only [List.mem_singleton] at hb
          exact hnotin (hb ▸ ha)
        have h := ih (addBinaryResource c icon acc) hinv1 hnd1
        have hids : notifIconIds (nt :: rest) = icon.Identifier :: notifIconIds rest := by
          simp [notifIconIds, hNt]
        have hb := hc.1
        refine ⟨h.1, h.2.1, fun x => ?_⟩
        rw [h.2.2 x, hstep, hids]
        simp only [List.map_append, List.map_cons, List.map_nil, List.mem_append,
          List.mem_singleton, List.mem_cons, List.not_mem_nil, or_false]
        tauto
      · have hstep : addBinaryResource c icon acc = acc := by
          simp only [addBinaryResource, if_neg hc]
        rw [hstep]
        have h := ih acc hinv hnd
        have hids : notifIconIds (nt :: rest) = icon.Identifier :: notifIconIds rest := by
          simp [notifIconIds, hNt]
        refine ⟨h.1, h.2.1, fun x => ?_⟩
        have himp : c.iconMode = IconMode.Binary → x = icon.Identifier →
            x ∈ acc.resources.map fun r => r.Identifier := by
          intro hbin hx
          rcases Decidable.em (icon.Identifier ∈ acc.seenIDs) with hseen | hseen
          · exact hx ▸ (hinv icon.Identifier).mp hseen
          · exact absurd ⟨hbin, hseen⟩ hc
        rw [h.2.2 x, hids]
        simp only [List.mem_cons]
        tauto

/-- The raw-resource list of Register is duplicate-free and holds exactly the
referenced identifiers in Binary mode (and is empty otherwise). -/
theorem registerResources_spec (c : ClientState) (nts : List NotificationType) :
    (((registerResources c nts).map fun r => r.Identifier).Nodup) ∧
    (∀ x, x ∈ (registerResources c nts).map (fun r => r.Identifier) ↔
      c.iconMode = IconMode.Binary ∧ x ∈ referencedIds c nts) := by
  unfold registerResources registerAcc
  rcases hApp : c.ApplicationIcon with _ | icon <;> dsimp only
  · have h := registerFold_spec c nts { resources := [], seenIDs := [] }
      (by intro x; simp) (by simp)
    refine ⟨h.2.1, fun x => ?_⟩
    rw [h.2.2 x]
    simp [referencedIds, hApp]
  · by_cases hb : c.iconMode = IconMode.Binary
    · have hstep : addBinaryResource c icon { resources := [], seenIDs := [] } =
          { resources := [icon], seenIDs := [icon.Identifier] } := by
        simp [addBinaryResource, hb]
      rw [hstep]
      have h := registerFold_spec c nts { resources := [icon], seenIDs := [icon.Identifier] }
        (by intro x; simp) (by simp)
      refine ⟨h.2.1, fun x => ?_⟩
      rw [h.2.2 x]
      simp only [List.map_cons, List.map_nil, List.mem_singleton, referencedIds, hApp,
        List.mem_append, List.mem_cons, List.not_mem_nil, or_false]
      tauto
    · have hstep : addBinaryResource c icon { resources := [], seenIDs := [] } =
          { resources := [], seenIDs := [] } := by
        simp [addBinaryResource]
        intro h
        exact absurd h hb
      rw [hstep]
      have h := registerFold_spec c nts { resources := [], seenIDs := [] }
        (by intro x; simp) (by simp)
      refine ⟨h.2.1, fun x => ?_⟩
      rw [h.2.2 x]
      simp only [List.map_nil, List.not_mem_nil, false_or]
      constructor
      · rintro ⟨hbin, _⟩
        exact absurd hbin hb
      · rintro ⟨hbin, _⟩
        exact absurd hbin hb

/-- Counting an Identifier line in the declaration block counts the matching
identifiers in the resource list. -/
theorem count_resourceBlock (resources : List Resource) (d : String) :
    (resourceBlockLines resources).count ("Identifier: " ++ d) =
      (resources.map fun r => r.Identifier).count d := by
  induction resources with
  | nil => rfl
  | cons r rest ih =>
    have h2 : ("Length: " ++ toString r.Data.length) ≠ "Identifier: " ++ d :=
      append_ne_of_key_ne (toString r.Data.length) d (by decide) (by decide)
    have h3 : ("" : String) ≠ "Identifier: " ++ d := const_ne_key_append d (by decide)
    simp only [resourceBlockLines] at ih
    simp only [resourceBlockLines, List.flatMap_cons, List.cons_append, List.nil_append,
      List.count_cons, List.map_cons, ih]
    simp [h2, h3, key_append_inj]

/-- No line of a notification-type block is an Identifier line. -/
theorem count_notifTypeLines (c : ClientState) (nt : NotificationType) (d : String) :
    (notifTypeLines c nt).count ("Identifier: " ++ d) = 0 := by
  have h1 : ("Notification-Name: " ++ nt.Name) ≠ "Identifier: " ++ d :=
    append_ne_of_key_ne nt.Name d (by decide) (by decide)
  have h2 : ("Notification-Display-Name: " ++ nt.DisplayName) ≠ "Identifier: " ++ d :=
    append_ne_of_key_ne nt.DisplayName d (by decide) (by decide)
  have h3 : ∀ v, ("Notification-Enabled: " ++ v) ≠ "Identifier: " ++ d :=
    fun v => append_ne_of_key_ne v d (by decide) (by decide)
  have h4 : ∀ v, ("Notification-Icon: " ++ v) ≠ "Identifier: " ++ d :=
    fun v => append_ne_of_key_ne v d (by decide) (by decide)
  have h5 : ("" : String) ≠ "Identifier: " ++ d := const_ne_key_append d (by decide)
  rcases hIc : nt.Icon with _ | icon <;> by_cases hdn : nt.DisplayName = "" <;>
    simp [notifTypeLines, hIc, hdn, List.count_cons, List.count_append,
      h1, h2, h3, h4, h5]

/-- No line of the notification-type section is an Identifier line. -/
theorem count_flatMap_typeLines (c : ClientState) (nts : List NotificationType) (d : String) :
    (nts.flatMap (notifTypeLines c)).count ("Identifier: " ++ d) = 0 := by
  induction nts with
  | nil => rfl
  | cons nt rest ih =>
    simp [List.flatMap_cons, List.count_append, ih, count_notifTypeLines]

/-- C2: in Binary icon mode the raw-resource transmission list of REGISTER
has no duplicate identifiers, and the packet contains exactly one Identifier
declaration line per distinct referenced identifier, however many
notification types (or the application) reference the same resource. -/
theorem register_binary_dedup (c : ClientState) (nts : List NotificationType)
    (hmode : c.iconMode = IconMode.Binary) :
    (((registerResources c nts).map fun r => r.Identifier).Nodup) ∧
    (∀ d, (registerLines c nts).count ("Identifier: " ++ d) =
      if d ∈ referencedIds c nts then 1 else 0) := by
  obtain ⟨hnd, hmem⟩ := registerResources_spec c nts
  refine ⟨hnd, fun d => ?_⟩
  have hb0 : ((registerResources c nts).map fun r => r.Identifier).count d =
      if d ∈ referencedIds c nts then 1 else 0 := by
    by_cases hdm : d ∈ referencedIds c nts
    · rw [if_pos hdm]
      exact List.count_eq_one_of_mem hnd ((hmem d).mpr ⟨hmode, hdm⟩)
    · rw [if_neg hdm]
      exact List.count_eq_zero.mpr (fun hc2 => hdm ((hmem d).mp hc2).2)
  have hg : ("GNTP/" ++ GNTPVersion ++ " REGISTER NONE") ≠ "Identifier: " ++ d :=
    const_ne_key_append d (by decide)
  have ha : ("Application-Name: " ++ c.ApplicationName) ≠ "Identifier: " ++ d :=
    append_ne_of_key_ne c.ApplicationName d (by decide) (by decide)
  have hai : ∀ v, ("Application-Icon: " ++ v) ≠ "Identifier: " ++ d :=
    fun v => append_ne_of_key_ne v d (by decide) (by decide)
  have hct : ("Notification-Callback-Target: " ++ c.callbackURL) ≠ "Identifier: " ++ d :=
    append_ne_of_key_ne c.callbackURL d (by decide) (by decide)
  have hcn : ("Notifications-Count: " ++ toString nts.length) ≠ "Identifier: " ++ d :=
    append_ne_of_key_ne (toString nts.length) d (by decide) (by decide)
  have hbl : ("" : String) ≠ "Identifier: " ++ d := const_ne_key_append d (by decide)
  rcases hApp : c.ApplicationIcon with _ | appicon <;>
    by_cases hcb : c.callbackURL = "" <;>
    simp [registerLines, hApp, hcb, hmode, List.count_append, List.count_cons,
      hg, ha, hai, hct, hcn, hbl, count_flatMap_typeLines, count_resourceBlock, hb0]

/-- A resource fixture shared by the application icon and two notification
types. -/
def iconShared : Resource :=
  { Identifier := "shared", Data := [], SourcePath := "", MimeType := "image/png" }

/-- Binary-mode client fixture whose application icon is the shared
resource. -/
def clientBinIcon : ClientState :=
  { Host := "localhost", Port := 23053, ApplicationName := "app",
    ApplicationIcon := some iconShared, iconMode := IconMode.Binary,
    registered := false, callbackURL := "" }

/-- First notification type referencing the shared resource. -/
def ntShared1 : NotificationType :=
  { Name := "a", DisplayName := "", Enabled := true, Icon := some iconShared }

/-- Second notification type referencing the shared resource. -/
def ntShared2 : NotificationType :=
  { Name := "b", DisplayName := "", Enabled := true, Icon := some iconShared }

/-- Witness for C2: three references to one identifier yield a single
declaration line and a duplicate-free list. -/
theorem register_binary_dedup_witness :
    (((registerResources clientBinIcon [ntShared1, ntShared2]).map fun r => r.Identifier).Nodup) ∧
    (registerLines clientBinIcon [ntShared1, ntShared2]).count ("Identifier: " ++ "shared") =
      (if "shared" ∈ referencedIds clientBinIcon [ntShared1, ntShared2] then 1 else 0) :=
  ⟨(register_binary_dedup clientBinIcon [ntShared1, ntShared2] rfl).1,
   (register_binary_dedup clientBinIcon [ntShared1, ntShared2] rfl).2 "shared"⟩

/-! Round-trip law of the DataURL encoding. -/

theorem decChar_encChar : ∀ i < 64, decChar (encChar i) = i := by decide

theorem encChar_ne_pad : ∀ i < 64, encChar i ≠ '=' := by decide

theorem encChar_ne_cr : ∀ i < 64, encChar i ≠ '\r' := by decide

theorem encChar_ne_lf : ∀ i < 64, encChar i ≠ '\n' := by decide

/-- The base64 text of a well-formed byte list contains no CR and no LF. -/
theorem b64encodeBytes_no_crlf (data : List Nat) (hb : ∀ b ∈ data, b < 256) :
    ∀ ch ∈ b64encodeBytes data, ch ≠ '\r' ∧ ch ≠ '\n' := by
  induction data using b64encodeBytes.induct with
  | case1 a b c rest ih =>
    intro ch hch
    have ha : a < 256 := hb a (by simp)
    have hb2 : b < 256 := hb b (by simp)
    have hc : c < 256 := hb c (by simp)
    simp only [b64encodeBytes, List.mem_cons] at hch
    rcases hch with h | h | h | h | h
    · exact h ▸ ⟨encChar_ne_cr _ (by omega), encChar_ne_lf _ (by omega)⟩
    · exact h ▸ ⟨encChar_ne_cr _ (by omega), encChar_ne_lf _ (by omega)⟩
    · exact h ▸ ⟨encChar_ne_cr _ (by omega), encChar_ne_lf _ (by omega)⟩
    · exact h ▸ ⟨encChar_ne_cr _ (by omega), encChar_ne_lf _ (by omega)⟩
    · exact ih (fun x hx => hb x (by simp [hx])) ch h
  | case2 a b =>
    intro ch hch
    have ha : a < 256 := hb a (by simp)
    have hb2 : b < 256 := hb b (by simp)
    simp only [b64encodeBytes, List.mem_cons, List.not_mem_nil, or_false] at hch
    rcases hch with h | h | h | h
    · exact h ▸ ⟨encChar_ne_cr _ (by omega), encChar_ne_lf _ (by omega)⟩
    · exact h ▸ ⟨encChar_ne_cr _ (by omega), encChar_ne_lf _ (by omega)⟩
    · exact h ▸ ⟨encChar_ne_cr _ (by omega), encChar_ne_lf _ (by omega)⟩
    · exact h ▸ ⟨by decide, by decide⟩
  | case3 a =>
    intro ch hch
    have ha : a < 256 := hb a (by simp)
    simp only [b64encodeBytes, List.mem_cons, List.not_mem_nil, or_false] at hch
    rcases hch with h | h | h | h
    · exact h ▸ ⟨encChar_ne_cr _ (by omega), encChar_ne_lf _ (by omega)⟩
    · exact h ▸ ⟨encChar_ne_cr _ (by omega), encChar_ne_lf _ (by omega)⟩
    · exact h ▸ ⟨by decide, by decide⟩
    · exact h ▸ ⟨by decide, by decide⟩
  | case4 =>
    intro ch hch
    simp [b64encodeBytes] at hch

/-- Base64 decoding inverts base64 encoding on well-formed byte lists. -/
theorem b64_roundtrip (data : List Nat) (hb : ∀ b ∈ data, b < 256) :
    b64decodeChars (b64encodeBytes data) = data := by
  induction data using b64encodeBytes.induct with
  | case1 a b c rest ih =>
    have ha : a < 256 := hb a (by simp)
    have hb2 : b < 256 := hb b (by simp)
    have hc : c < 256 := hb c (by simp)
    simp only [b64encodeBytes, b64decodeChars]
    rw [if_neg (encChar_ne_pad _ (by omega)), if_neg (encChar_ne_pad _ (by omega))]
    rw [decChar_encChar _ (by omega), decChar_encChar _ (by omega),
      decChar_encChar _ (by omega), decChar_encChar _ (by omega)]
    rw [ih (fun x hx => hb x (by simp [hx]))]
    have e1 : a / 4 * 4 + ((a % 4) * 16 + b / 16) / 16 = a := by omega
    have e2 : ((a % 4) * 16 + b / 16) % 16 * 16 + ((b % 16) * 4 + c / 64) / 4 = b := by omega
    have e3 : ((b % 16) * 4 + c / 64) % 4 * 64 + c % 64 = c := by omega
    rw [e1, e2, e3]
  | case2 a b =>
    have ha : a < 256 := hb a (by simp)
    have hb2 : b < 256 := hb b (by simp)
    simp only [b64encodeBytes, b64decodeChars]
    rw [if_neg (encChar_ne_pad _ (by omega))]
    simp only [if_true]
    rw [decChar_encChar _ (by omega), decChar_encChar _ (by omega),
      decChar_encChar _ (by omega)]
    have e1 : a / 4 * 4 + ((a % 4) * 16 + b / 16) / 16 = a := by omega
    have e2 : ((a % 4) * 16 + b / 16) % 16 * 16 + (b % 16) * 4 / 4 = b := by omega
    rw [e1, e2]
  | case3 a =>
    have ha : a < 256 := hb a (by simp)
    simp only [b64encodeBytes, b64decodeChars]
    simp only [if_true]
    rw [decChar_encChar _ (by omega), decChar_encChar _ (by omega)]
    have e1 : a / 4 * 4 + (a % 4) * 16 / 16 = a := by omega
    rw [e1]
  | case4 => rfl

/-- Stripping CR and LF undoes the 76-column wrapping on CRLF-free text. -/
theorem stripCRLF_wrap76 (s : List Char) (h : ∀ ch ∈ s, ch ≠ '\r' ∧ ch ≠ '\n') :
    stripCRLF (wrap76 s) = s := by
  induction s using wrap76.induct with
  | case1 s hle =>
    rw [wrap76, if_pos hle]
    rw [stripCRLF, List.filter_eq_self]
    intro a ha
    have := h a ha
    simp [this.1, this.2]
  | case2 s hgt ih =>
    rw [wrap76, if_neg hgt]
    have hdrop : ∀ ch ∈ s.drop 76, ch ≠ '\r' ∧ ch ≠ '\n' :=
      fun ch hch => h ch (List.mem_of_mem_drop hch)
    have htake : (s.take 76).filter (fun c => !(c = '\r' ∨ c = '\n')) = s.take 76 := by
      rw [List.filter_eq_self]
      intro a ha
      have := h a (List.mem_of_mem_take ha)
      simp [this.1, this.2]
    have hih := ih hdrop
    simp only [stripCRLF] at hih ⊢
    rw [List.filter_append, List.filter_cons, List.filter_cons]
    simp only [htake, hih]
    simp [List.take_append_drop]

/-- C3: the DataURL reference of a well-formed Resource has the form
data:mime;base64,payload where the payload is the 76-column CRLF-wrapped
base64 text of the bytes, and stripping CR and LF from the payload and
base64-decoding the result returns exactly the original bytes. -/
theorem dataurl_roundtrip (r : Resource) (hb : ∀ b ∈ r.Data, b < 256) :
    ∃ payload : List Char,
      toDataURL r = "data:" ++ r.MimeType ++ ";base64," ++ String.mk payload ∧
      payload = wrap76 (b64encodeBytes r.Data) ∧
      b64decodeChars (stripCRLF payload) = r.Data := by
  refine ⟨wrap76 (b64encodeBytes r.Data), rfl, rfl, ?_⟩
  rw [stripCRLF_wrap76 _ (b64encodeBytes_no_crlf _ hb), b64_roundtrip _ hb]

/-- Concrete resource fixture for the round-trip witness. -/
def resRoundtrip : Resource :=
  { Identifier := "res1", Data := [77, 97, 110, 0, 255], SourcePath := "",
    MimeType := "image/png" }

/-- Witness for C3 at a concrete five-byte resource. -/
theorem dataurl_roundtrip_witness :
    (∀ b ∈ resRoundtrip.Data, b < 256) ∧
    ∃ payload : List Char,
      toDataURL resRoundtrip = "data:" ++ resRoundtrip.MimeType ++ ";base64," ++ String.mk payload ∧
      payload = wrap76 (b64encodeBytes resRoundtrip.Data) ∧
      b64decodeChars (stripCRLF payload) = resRoundtrip.Data :=
  ⟨by decide, dataurl_roundtrip resRoundtrip (by decide)⟩

/-! Wire shape of the two send paths. -/

theorem flatten_append (a b : List NetChunk) :
    flattenChunks (a ++ b) = flattenChunks a ++ flattenChunks b := by
  simp [flattenChunks, List.flatMap_append]

theorem flatten_resourceChunks (resources : List Resource) :
    flattenChunks (resources.flatMap fun r => [NetChunk.bytes r.Data, NetChunk.str CRLF]) =
      resources.flatMap fun r => r.Data ++ crlfBytes := by
  induction resources with
  | nil => rfl
  | cons r rest ih =>
    rw [List.flatMap_cons, flatten_append, ih, List.flatMap_cons]
    simp [flattenChunks, crlfBytes]

theorem flatten_withResources (packet : String) (resources : List Resource) :
    flattenChunks (sendPacketWithResourcesChunks packet resources) =
      strToBytes packet ++ (resources.flatMap fun r => r.Data ++ crlfBytes) ++ crlfBytes := by
  simp only [sendPacketWithResourcesChunks]
  rw [flatten_append]
  rw [show (NetChunk.str packet ::
        resources.flatMap fun r => [NetChunk.bytes r.Data, NetChunk.str CRLF]) =
      [NetChunk.str packet] ++
        resources.flatMap fun r => [NetChunk.bytes r.Data, NetChunk.str CRLF] from rfl]
  rw [flatten_append, flatten_resourceChunks]
  simp [flattenChunks, crlfBytes, List.append_assoc]

/-- A plain Binary-mode client fixture with no icons anywhere. -/
def clientBinPlain : ClientState :=
  { Host := "localhost", Port := 23053, ApplicationName := "app",
    ApplicationIcon := none, iconMode := IconMode.Binary,
    registered := true, callbackURL := "" }

/-- A notification type with no icon. -/
def ntPlain : NotificationType :=
  { Name := "alert", DisplayName := "Alert", Enabled := true, Icon := none }

set_option maxRecDepth 8192 in
/-- C6 counterexample: a Binary-mode REGISTER with no icons has an empty
raw-resource list, yet its wire bytes are not just the header block: the
resource-bearing writer still appends the final blank-line terminator. -/
theorem binary_empty_resources_extra_terminator :
    registerResources clientBinPlain [ntPlain] = [] ∧
    flattenChunks (registerSendChunks clientBinPlain [ntPlain]) =
      strToBytes (registerPacketStr clientBinPlain [ntPlain]) ++ crlfBytes ∧
    flattenChunks (registerSendChunks clientBinPlain [ntPlain]) ≠
      strToBytes (registerPacketStr clientBinPlain [ntPlain]) := by
  refine ⟨rfl, ?_, ?_⟩
  · decide
  · decide

/-- C6 (amended): the text-only send path writes exactly the header block
with no extra terminator; the resource-bearing path (chosen exactly in
Binary mode) writes the header block, then every resource's raw bytes
followed by CRLF in list order, then one final blank-line terminator, also
when its resource list is empty. -/
theorem send_paths_write_shapes :
    (∀ packet : String, flattenChunks (sendPacketChunks packet) = strToBytes packet) ∧
    (∀ (packet : String) (resources : List Resource),
      flattenChunks (sendPacketWithResourcesChunks packet resources) =
        strToBytes packet ++ (resources.flatMap fun r => r.Data ++ crlfBytes) ++ crlfBytes) ∧
    (∀ (c : ClientState) (nts : List NotificationType),
      registerSendChunks c nts =
        if c.iconMode = IconMode.Binary then
          sendPacketWithResourcesChunks (registerPacketStr c nts) (registerResources c nts)
        else sendPacketChunks (registerPacketStr c nts)) := by
  refine ⟨fun packet => ?_, flatten_withResources, fun c nts => rfl⟩
  simp [flattenChunks, sendPacketChunks]

end GoGntp
